import Mathlib

/-!
# Verification of the pydatalab BigQuery pipeline compiler

Shallow embedding of `google/datalab/contrib/bigquery/commands/_bigquery.py`:
the configuration-to-task-graph compiler (`_pipeline_cell` and its stage
builders `_add_load_parameters`, `_add_execute_parameters`,
`_add_extract_parameters`) and the query-parameter converter
`_get_query_parameters`.

Python dictionaries with string keys are modelled as insertion-ordered
association lists (`Config`); Python `raise Exception(msg)` is modelled as
`Except.error msg`; a builder that both mutates its task-config argument and
returns either that config or `None` is modelled as returning the mutated
config together with a `Bool` recording whether the Python return value was
non-`None`.
-/

set_option autoImplicit false

namespace PydatalabBQ

/-- A scalar or structured value stored in a configuration dictionary
(string, integer, boolean, list, or Python `None`). -/
inductive Val where
  | str (s : String)
  | num (n : Int)
  | bool (b : Bool)
  | list (l : List Val)
  | null
  deriving Repr

/-- A Python string-keyed dictionary, as an insertion-ordered association
list. -/
abbrev Config := List (String × Val)

/-- Python membership test, `k in d`. -/
def Config.hasKey (c : Config) (k : String) : Bool :=
  c.any (fun p => p.1 == k)

/-- Python lookup `d[k]` (first binding for `k`, which is the only one since
assignment overwrites in place). -/
def Config.get? (c : Config) (k : String) : Option Val :=
  (c.find? (fun p => p.1 == k)).map Prod.snd

/-- Python `d.get(k, default)`. -/
def Config.getD (c : Config) (k : String) (d : Val) : Val :=
  (c.get? k).getD d

/-- Python `d[k] = v`: overwrite in place when the key exists, append
otherwise. -/
def Config.set (c : Config) (k : String) (v : Val) : Config :=
  if c.hasKey k then c.map (fun p => if p.1 == k then (k, v) else p)
  else c ++ [(k, v)]

/-- Python dict truthiness: a dict is falsy exactly when it is empty. -/
def Config.isEmpty (c : Config) : Bool :=
  match c with
  | [] => true
  | _ :: _ => false

/-- Lines 222-242 of `_add_load_parameters`: the file-option section the
decision block falls through to.  When `path` is present the five file
options are set with their defaults; otherwise, if any file option is
present without a path, an error is raised. -/
def loadFileOptions (load_task_config : Config) (input : Config)
    (path_exists : Bool) : Except String (Config × Bool) :=
  if path_exists then
    let ltc := load_task_config.set "format" (input.getD "format" (Val.str "csv"))
    let ltc := ltc.set "delimiter" (input.getD "delimiter" (Val.str ","))
    let ltc := ltc.set "quote" (input.getD "quote" (Val.str "\""))
    let ltc := ltc.set "skip" (input.getD "skip" (Val.num 0))
    let ltc := ltc.set "strict" (input.getD "strict" (Val.bool true))
    Except.ok (ltc, true)
  else if ["format", "delimiter", "quote", "skip", "strict"].any input.hasKey then
    Except.error "Path is not specified, but at least one file option is."
  else
    Except.ok (load_task_config, true)

/-- Embeds `_add_load_parameters(load_task_config, bq_pipeline_input_config)`
(lines 175-242).  Returns the mutated `load_task_config` and whether the
Python return value was the config (`true`) or `None` (`false`).

Note: in the source, `schema_exists = True` (line 192) is NOT indented
under the preceding `if 'schema' in ...` block, so it executes
unconditionally; the embedding reproduces this. -/
def addLoadParameters (load_task_config : Config) (input : Config) :
    Except String (Config × Bool) :=
  let path_exists := input.hasKey "path"
  let ltc := if path_exists then
      load_task_config.set "path" (input.getD "path" Val.null)
    else load_task_config
  let table_exists := input.hasKey "table"
  let ltc := if table_exists then ltc.set "table" (input.getD "table" Val.null)
    else ltc
  let _schema_exists := false
  let ltc := if input.hasKey "schema" then
      ltc.set "schema" (input.getD "schema" Val.null)
    else ltc
  let schema_exists := true
  if table_exists then
    if path_exists then
      let ltc := if schema_exists then ltc.set "mode" (Val.str "create")
        else ltc.set "mode" (Val.str "append")
      loadFileOptions ltc input path_exists
    else
      if schema_exists then
        Except.error "Schema is specified, but path is absent."
      else
        Except.ok (ltc, false)
  else
    if !path_exists then
      Except.ok (ltc, false)
    else
      loadFileOptions ltc input path_exists

/-- Embeds `_add_execute_parameters(execute_task_config,
bq_pipeline_transformation_config)` (lines 245-261). -/
def addExecuteParameters (execute_task_config : Config) (transformation : Config) :
    Except String (Config × Bool) :=
  if transformation.hasKey "query" then
    let etc := execute_task_config.set "query" (transformation.getD "query" Val.null)
    let etc := etc.set "large" (transformation.getD "large" (Val.bool true))
    let etc := etc.set "mode" (transformation.getD "mode" (Val.str "create"))
    Except.ok (etc, true)
  else
    if ["large", "mode"].any transformation.hasKey then
      Except.error "Query is not specified, but at least one query option is."
    else
      Except.ok (execute_task_config, false)

/-- Embeds `_add_extract_parameters(extract_task_config, execute_task_config,
bq_pipeline_output_config)` (lines 264-299).  Returns the mutated
`extract_task_config`, the mutated `execute_task_config`, and whether the
Python return value was non-`None`. -/
def addExtractParameters (extract_task_config : Config)
    (execute_task_config : Config) (output : Config) :
    Except String (Config × Config × Bool) :=
  if output.hasKey "table" then
    let etc := execute_task_config.set "table" (output.getD "table" Val.null)
    if output.hasKey "path" then
      let xtc := extract_task_config.set "path" (output.getD "path" Val.null)
      if !(etc.hasKey "table") then
        Except.error "Path is specified but table is not."
      else
        let xtc := xtc.set "billing" (output.getD "billing" Val.null)
        let xtc := xtc.set "compress" (output.getD "compress" (Val.bool true))
        let xtc := xtc.set "delimiter" (output.getD "delimiter" (Val.str ","))
        let xtc := xtc.set "header" (output.getD "header" (Val.bool true))
        let xtc := xtc.set "format" (output.getD "format" (Val.str "csv"))
        Except.ok (xtc, etc, true)
    else
      if ["compress", "delimiter", "format", "header"].any output.hasKey then
        Except.error "Path is not specified, but at least one file option is."
      else
        Except.ok (extract_task_config, etc, false)
  else
    Except.ok (extract_task_config, execute_task_config, false)

/-- The pipeline document parsed from the cell body, with the top-level keys
`_pipeline_cell` reads.  `email` and `schedule` are accessed with `[]`
(required); the three sub-configs are the nested dictionaries. -/
structure PipelineDoc where
  email : Val
  schedule : Val
  input : Config
  transformation : Config
  output : Config

/-- The pipeline specification dictionary assembled by `_pipeline_cell`
(lines 150-162): `email`, `schedule` and the `tasks` mapping from task name
to task config. -/
structure PipelineSpec where
  email : Val
  schedule : Val
  tasks : List (String × Config)

/-- The notebook environment registry, mapping pipeline names to the
registered `PipelineSpec`. -/
abbrev Env := List (String × PipelineSpec)

/-- Python assignment `env[name] = pipeline`: overwrite or append, like
`Config.set`. -/
def Env.set (env : Env) (k : String) (v : PipelineSpec) : Env :=
  if env.any (fun p => p.1 == k) then
    env.map (fun p => if p.1 == k then (k, v) else p)
  else env ++ [(k, v)]

/-- Embeds `_pipeline_cell(args, cell_body)` (lines 119-172): runs the three
stage builders on the parsed document, assembles the `tasks` mapping from
the task-config dictionaries that are truthy (non-empty), raises when all
three are falsy, and registers the resulting spec in the notebook
environment under the pipeline name.  Returns the outcome together with the
(possibly updated) environment; on an error the environment is returned as
given, since the registration statement comes after every raising
statement. -/
def pipelineCell (name : Option String) (doc : PipelineDoc) (env : Env) :
    Except String PipelineSpec × Env :=
  match name with
  | none => (Except.error "Pipeline name was not specified.", env)
  | some n =>
    let load_task_config : Config := [("type", Val.str "pydatalab.bq.load")]
    match addLoadParameters load_task_config doc.input with
    | Except.error e => (Except.error e, env)
    | Except.ok (ltc, _) =>
      let execute_task_config : Config :=
        [("type", Val.str "pydatalab.bq.execute"),
         ("up_stream", Val.list [Val.str "bq_pipeline_load_task"])]
      match addExecuteParameters execute_task_config doc.transformation with
      | Except.error e => (Except.error e, env)
      | Except.ok (etc, _) =>
        let extract_task_config : Config :=
          [("type", Val.str "pydatalab.bq.extract"),
           ("up_stream", Val.list [Val.str "bq_pipeline_execute_task"])]
        match addExtractParameters extract_task_config etc doc.output with
        | Except.error e => (Except.error e, env)
        | Except.ok (xtc, etc, _) =>
          let tasks : List (String × Config) := []
          let tasks := if !ltc.isEmpty then
              tasks ++ [("bq_pipeline_load_task", ltc)] else tasks
          let tasks := if !etc.isEmpty then
              tasks ++ [("bq_pipeline_execute_task", etc)] else tasks
          let tasks := if !xtc.isEmpty then
              tasks ++ [("bq_pipeline_extract_task", xtc)] else tasks
          if ltc.isEmpty && etc.isEmpty && xtc.isEmpty then
            (Except.error "Pipeline has no tasks to execute.", env)
          else
            let spec : PipelineSpec :=
              { email := doc.email, schedule := doc.schedule, tasks := tasks }
            (Except.ok spec, env.set n spec)

/-- A query parameter in the simplified user-facing form:
`{name, type, value}`. -/
structure QueryParam where
  name : String
  type : String
  value : Val

/-- The `parameterType` wrapper dict of a compiled parameter. -/
structure ParamTypeField where
  type : String

/-- The `parameterValue` wrapper dict of a compiled parameter. -/
structure ParamValueField where
  value : Val

/-- A compiled BigQuery query parameter: exactly the three fields of the
dict literal built at lines 105-113. -/
structure CompiledParam where
  name : String
  parameterType : ParamTypeField
  parameterValue : ParamValueField

/-- The conversion loop of `_get_query_parameters` (lines 103-114): for a
schema-valid `parameters` list, appends one compiled parameter per input
parameter, in order. -/
def getQueryParameters (parameters : List QueryParam) : List CompiledParam :=
  parameters.foldl
    (fun parsed_params param =>
      parsed_params ++
        [{ name := param.name,
           parameterType := { type := param.type },
           parameterValue := { value := param.value } }])
    []

/-- The names carried by an `up_stream` value (a Python list of task-name
strings). -/
def Val.strNames : Val → List String
  | Val.list l => l.filterMap (fun v => match v with | Val.str s => some s | _ => none)
  | _ => []

/-- The task names a task config lists in its `up_stream` field (empty when
the field is absent). -/
def Config.upStreamNames (c : Config) : List String :=
  Val.strNames (Config.getD c "up_stream" (Val.list []))

/-- Membership of a task name in a `tasks` mapping. -/
def tasksHasName (ts : List (String × Config)) (k : String) : Bool :=
  ts.any (fun p => p.1 == k)

/-- The per-parameter conversion applied by `_get_query_parameters`
(lines 105-113). -/
def compileParam (p : QueryParam) : CompiledParam :=
  { name := p.name, parameterType := { type := p.type },
    parameterValue := { value := p.value } }

/-- Recognizes the specific `_add_extract_parameters` outcome that raises
the path-given-but-table-absent error (line 277). -/
def isPathWithoutTableError (r : Except String (Config × Config × Bool)) : Bool :=
  match r with
  | Except.error e => e == "Path is specified but table is not."
  | Except.ok _ => false

/-- The round-trip document of the spec: `input` has only `table`,
`transformation` has only `query`, `output` is empty. -/
def docC1 : PipelineDoc :=
  { email := Val.str "foo@example.com", schedule := Val.str "0 0 * * *",
    input := [("table", Val.str "t")],
    transformation := [("query", Val.str "SELECT 1")],
    output := [] }

/-- A pipeline document whose three sub-configs are all empty. -/
def docC5 : PipelineDoc :=
  { email := Val.str "foo@example.com", schedule := Val.str "0 0 * * *",
    input := [], transformation := [], output := [] }

/-- The pipeline spec that compiling `docC5` actually produces: three
skeleton tasks, because the non-empty task dictionaries are truthy even
though every stage builder returned `None`. -/
def specC5 : PipelineSpec :=
  { email := Val.str "foo@example.com", schedule := Val.str "0 0 * * *",
    tasks := [("bq_pipeline_load_task", [("type", Val.str "pydatalab.bq.load")]),
              ("bq_pipeline_execute_task",
                [("type", Val.str "pydatalab.bq.execute"),
                 ("up_stream", Val.list [Val.str "bq_pipeline_load_task"])]),
              ("bq_pipeline_extract_task",
                [("type", Val.str "pydatalab.bq.extract"),
                 ("up_stream", Val.list [Val.str "bq_pipeline_execute_task"])])] }

/-- A pipeline document with only a transformation query, which compiles
successfully. -/
def docC4 : PipelineDoc :=
  { email := Val.str "e@example.com", schedule := Val.str "@daily",
    input := [], transformation := [("query", Val.str "SELECT 2")], output := [] }

/-- The execute task config produced when compiling `docC4`. -/
def execC4 : Config :=
  [("type", Val.str "pydatalab.bq.execute"),
   ("up_stream", Val.list [Val.str "bq_pipeline_load_task"]),
   ("query", Val.str "SELECT 2"), ("large", Val.bool true), ("mode", Val.str "create")]

/-- The pipeline spec produced when compiling `docC4`. -/
def specC4 : PipelineSpec :=
  { email := Val.str "e@example.com", schedule := Val.str "@daily",
    tasks := [("bq_pipeline_load_task", [("type", Val.str "pydatalab.bq.load")]),
              ("bq_pipeline_execute_task", execC4),
              ("bq_pipeline_extract_task",
                [("type", Val.str "pydatalab.bq.extract"),
                 ("up_stream", Val.list [Val.str "bq_pipeline_execute_task"])])] }

/-- A pipeline document on which compilation raises (table present, path
absent). -/
def docC9 : PipelineDoc :=
  { email := Val.str "e@example.com", schedule := Val.str "@daily",
    input := [("table", Val.str "t")],
    transformation := [("query", Val.str "SELECT 1")],
    output := [] }

/-- A non-empty starting registry. -/
def envC9 : Env := [("existing", { email := Val.null, schedule := Val.null, tasks := [] })]

end PydatalabBQ

namespace PydatalabBQ

theorem Config.get?_nil (k : String) : Config.get? [] k = none := rfl

theorem Config.get?_cons (p : String × Val) (c : Config) (k : String) :
    Config.get? (p :: c) k = if p.1 == k then some p.2 else Config.get? c k := by
  simp only [Config.get?, List.find?]
  cases h : p.1 == k <;> simp [h]

theorem Config.get?_overwrite_ne (c : Config) (k k' : String) (v : Val) (h : k' ≠ k) :
    Config.get? (c.map (fun p => if p.1 == k then (k, v) else p)) k' = Config.get? c k' := by
  induction c with
  | nil => rfl
  | cons p c ih =>
    simp only [List.map_cons]
    rw [Config.get?_cons, Config.get?_cons]
    by_cases hp : p.1 = k
    · have h1 : (k == k') = false := by simp [Ne.symm h]
      have h2 : (p.1 == k') = false := by simp [hp, Ne.symm h]
      simp only [hp, beq_self_eq_true, if_true, h1, h2, Bool.false_eq_true, if_false]
      exact ih
    · have h1 : (p.1 == k) = false := by simp [hp]
      simp only [h1, Bool.false_eq_true, if_false]
      cases h2 : p.1 == k' <;> simp only [Bool.false_eq_true, if_false, if_true] <;>
        exact ih

theorem Config.get?_overwrite_self (c : Config) (k : String) (v : Val)
    (hc : Config.hasKey c k = true) :
    Config.get? (c.map (fun p => if p.1 == k then (k, v) else p)) k = some v := by
  induction c with
  | nil => simp [Config.hasKey] at hc
  | cons p c ih =>
    simp only [Config.hasKey, List.any_cons] at hc
    simp only [List.map_cons]
    rw [Config.get?_cons]
    cases h1 : p.1 == k with
    | true => simp [h1]
    | false =>
      rw [h1] at hc
      simp only [Bool.false_or] at hc
      simp only [h1, Bool.false_eq_true, if_false]
      exact ih hc

theorem Config.get?_append_single_ne (c : Config) (k k' : String) (v : Val) (h : k' ≠ k) :
    Config.get? (c ++ [(k, v)]) k' = Config.get? c k' := by
  induction c with
  | nil =>
    simp only [List.nil_append]
    rw [Config.get?_cons]
    simp [Ne.symm h, Config.get?_nil]
  | cons p c ih =>
    simp only [List.cons_append]
    rw [Config.get?_cons, Config.get?_cons]
    cases hp : p.1 == k' <;> simp [ih]

theorem Config.get?_append_single_self (c : Config) (k : String) (v : Val)
    (hc : Config.hasKey c k = false) :
    Config.get? (c ++ [(k, v)]) k = some v := by
  induction c with
  | nil =>
    simp only [List.nil_append]
    rw [Config.get?_cons]
    simp
  | cons p c ih =>
    simp only [Config.hasKey, List.any_cons, Bool.or_eq_false_iff] at hc
    simp only [List.cons_append]
    rw [Config.get?_cons]
    simp only [hc.1, Bool.false_eq_true, if_false]
    exact ih hc.2

theorem Config.get?_set_ne (c : Config) (k k' : String) (v : Val) (h : k' ≠ k) :
    Config.get? (c.set k v) k' = Config.get? c k' := by
  unfold Config.set
  split
  · exact Config.get?_overwrite_ne c k k' v h
  · exact Config.get?_append_single_ne c k k' v h

theorem Config.get?_set_self (c : Config) (k : String) (v : Val) :
    Config.get? (c.set k v) k = some v := by
  unfold Config.set
  split
  · next hc => exact Config.get?_overwrite_self c k v hc
  · next hc => exact Config.get?_append_single_self c k v (by simpa using hc)

theorem Config.hasKey_eq_isSome (c : Config) (k : String) :
    Config.hasKey c k = (Config.get? c k).isSome := by
  induction c with
  | nil => rfl
  | cons p c ih =>
    simp only [Config.hasKey, List.any_cons]
    rw [Config.get?_cons]
    cases h : p.1 == k <;> simp [h, ← ih, Config.hasKey]

theorem Config.hasKey_set_self (c : Config) (k : String) (v : Val) :
    Config.hasKey (c.set k v) k = true := by
  rw [Config.hasKey_eq_isSome, Config.get?_set_self]
  rfl

theorem Config.isEmpty_set (c : Config) (k : String) (v : Val) :
    Config.isEmpty (c.set k v) = false := by
  unfold Config.set
  split
  · next hc =>
    cases c with
    | nil => simp [Config.hasKey] at hc
    | cons p c => rfl
  · cases c <;> rfl

theorem loadFileOptions_get?_keep (c i : Config) (pe : Bool) (l : Config) (b : Bool)
    (k : String)
    (hk : k ≠ "format" ∧ k ≠ "delimiter" ∧ k ≠ "quote" ∧ k ≠ "skip" ∧ k ≠ "strict")
    (h : loadFileOptions c i pe = Except.ok (l, b)) :
    Config.get? l k = Config.get? c k := by
  unfold loadFileOptions at h
  split at h
  · cases h
    simp [Config.get?_set_ne, hk.1, hk.2.1, hk.2.2.1, hk.2.2.2.1, hk.2.2.2.2]
  · split at h
    · cases h
    · cases h
      rfl

theorem addLoadParameters_get?_keep (c i : Config) (l : Config) (b : Bool) (k : String)
    (hk : k ≠ "path" ∧ k ≠ "table" ∧ k ≠ "schema" ∧ k ≠ "mode" ∧ k ≠ "format" ∧
          k ≠ "delimiter" ∧ k ≠ "quote" ∧ k ≠ "skip" ∧ k ≠ "strict")
    (h : addLoadParameters c i = Except.ok (l, b)) :
    Config.get? l k = Config.get? c k := by
  obtain ⟨h1, h2, h3, h4, h5, h6, h7, h8, h9⟩ := hk
  unfold addLoadParameters at h
  simp only at h
  split at h
  · split at h
    · have := loadFileOptions_get?_keep _ i _ l b k ⟨h5, h6, h7, h8, h9⟩ h
      rw [this]
      split_ifs <;> simp [Config.get?_set_ne, h1, h2, h3, h4]
    · split at h
      · cases h
      · cases h
        split_ifs <;> simp [Config.get?_set_ne, h1, h2, h3]
  · split at h
    · cases h
      split_ifs <;> simp [Config.get?_set_ne, h1, h2, h3]
    · have := loadFileOptions_get?_keep _ i _ l b k ⟨h5, h6, h7, h8, h9⟩ h
      rw [this]
      split_ifs <;> simp [Config.get?_set_ne, h1, h2, h3]

theorem loadFileOptions_isEmpty (c i : Config) (pe : Bool) (l : Config) (b : Bool)
    (hc : Config.isEmpty c = false) (h : loadFileOptions c i pe = Except.ok (l, b)) :
    Config.isEmpty l = false := by
  unfold loadFileOptions at h
  split at h
  · cases h
    simp [Config.isEmpty_set]
  · split at h
    · cases h
    · cases h
      exact hc

theorem addLoadParameters_isEmpty (c i : Config) (l : Config) (b : Bool)
    (hc : Config.isEmpty c = false) (h : addLoadParameters c i = Except.ok (l, b)) :
    Config.isEmpty l = false := by
  unfold addLoadParameters at h
  simp only at h
  split at h
  · split at h
    · exact loadFileOptions_isEmpty _ i _ l b
        (by split_ifs <;> simp [Config.isEmpty_set, hc]) h
    · split at h
      · cases h
      · cases h
        split_ifs <;> simp [Config.isEmpty_set, hc]
  · split at h
    · cases h
      split_ifs <;> simp [Config.isEmpty_set, hc]
    · exact loadFileOptions_isEmpty _ i _ l b
        (by split_ifs <;> simp [Config.isEmpty_set, hc]) h

theorem addExecuteParameters_get?_keep (c t : Config) (l : Config) (b : Bool) (k : String)
    (hk : k ≠ "query" ∧ k ≠ "large" ∧ k ≠ "mode")
    (h : addExecuteParameters c t = Except.ok (l, b)) :
    Config.get? l k = Config.get? c k := by
  obtain ⟨h1, h2, h3⟩ := hk
  unfold addExecuteParameters at h
  split at h
  · cases h
    simp [Config.get?_set_ne, h1, h2, h3]
  · split at h
    · cases h
    · cases h
      rfl

theorem addExecuteParameters_isEmpty (c t : Config) (l : Config) (b : Bool)
    (hc : Config.isEmpty c = false) (h : addExecuteParameters c t = Except.ok (l, b)) :
    Config.isEmpty l = false := by
  unfold addExecuteParameters at h
  split at h
  · cases h
    simp [Config.isEmpty_set]
  · split at h
    · cases h
    · cases h
      exact hc

theorem addExtractParameters_xtc_get?_keep (c e o : Config) (x e' : Config) (b : Bool)
    (k : String)
    (hk : k ≠ "path" ∧ k ≠ "billing" ∧ k ≠ "compress" ∧ k ≠ "delimiter" ∧
          k ≠ "header" ∧ k ≠ "format")
    (h : addExtractParameters c e o = Except.ok (x, e', b)) :
    Config.get? x k = Config.get? c k := by
  obtain ⟨h1, h2, h3, h4, h5, h6⟩ := hk
  unfold addExtractParameters at h
  simp only at h
  split at h
  · split at h
    · split at h
      · cases h
      · cases h
        simp [Config.get?_set_ne, h1, h2, h3, h4, h5, h6]
    · split at h
      · cases h
      · cases h
        rfl
  · cases h
    rfl

theorem addExtractParameters_etc_get?_keep (c e o : Config) (x e' : Config) (b : Bool)
    (k : String) (hk : k ≠ "table")
    (h : addExtractParameters c e o = Except.ok (x, e', b)) :
    Config.get? e' k = Config.get? e k := by
  unfold addExtractParameters at h
  simp only at h
  split at h
  · split at h
    · split at h
      · cases h
      · cases h
        simp [Config.get?_set_ne, hk]
    · split at h
      · cases h
      · cases h
        simp [Config.get?_set_ne, hk]
  · cases h
    rfl

theorem addExtractParameters_xtc_isEmpty (c e o : Config) (x e' : Config) (b : Bool)
    (hc : Config.isEmpty c = false) (h : addExtractParameters c e o = Except.ok (x, e', b)) :
    Config.isEmpty x = false := by
  unfold addExtractParameters at h
  simp only at h
  split at h
  · split at h
    · split at h
      · cases h
      · cases h
        simp [Config.isEmpty_set]
    · split at h
      · cases h
      · cases h
        exact hc
  · cases h
    exact hc

theorem addExtractParameters_etc_isEmpty (c e o : Config) (x e' : Config) (b : Bool)
    (hc : Config.isEmpty e = false) (h : addExtractParameters c e o = Except.ok (x, e', b)) :
    Config.isEmpty e' = false := by
  unfold addExtractParameters at h
  simp only at h
  split at h
  · split at h
    · split at h
      · cases h
      · cases h
        simp [Config.isEmpty_set]
    · split at h
      · cases h
      · cases h
        simp [Config.isEmpty_set]
  · cases h
    exact hc

end PydatalabBQ

namespace PydatalabBQ

/-- Helper: a fold that appends one image per element equals the map. -/
theorem foldl_append_map {α β : Type} (f : α → β) (l : List α) (acc : List β) :
    l.foldl (fun a p => a ++ [f p]) acc = acc ++ l.map f := by
  induction l generalizing acc with
  | nil => simp
  | cons p l ih => simp [ih]

/-- Every successfully assembled pipeline spec has exactly the three task
entries, in order, with the `up_stream` value each task config carries. -/
theorem pipelineCell_ok_tasks (name : Option String) (doc : PipelineDoc) (env : Env)
    (spec : PipelineSpec) (env' : Env)
    (h : pipelineCell name doc env = (Except.ok spec, env')) :
    ∃ l e x,
      spec.tasks = [("bq_pipeline_load_task", l), ("bq_pipeline_execute_task", e),
                    ("bq_pipeline_extract_task", x)] ∧
      Config.get? l "up_stream" = none ∧
      Config.get? e "up_stream" = some (Val.list [Val.str "bq_pipeline_load_task"]) ∧
      Config.get? x "up_stream" = some (Val.list [Val.str "bq_pipeline_execute_task"]) := by
  cases name with
  | none => simp [pipelineCell] at h
  | some n =>
    unfold pipelineCell at h
    simp only at h
    rcases hL : addLoadParameters [("type", Val.str "pydatalab.bq.load")] doc.input with
      eL | ⟨ltc, bL⟩
    · rw [hL] at h
      simp at h
    · rw [hL] at h
      dsimp only at h
      rcases hE : addExecuteParameters
          [("type", Val.str "pydatalab.bq.execute"),
           ("up_stream", Val.list [Val.str "bq_pipeline_load_task"])]
          doc.transformation with eE | ⟨etc, bE⟩
      · rw [hE] at h
        simp at h
      · rw [hE] at h
        dsimp only at h
        rcases hX : addExtractParameters
            [("type", Val.str "pydatalab.bq.extract"),
             ("up_stream", Val.list [Val.str "bq_pipeline_execute_task"])]
            etc doc.output with eX | ⟨xtc, etc2, bX⟩
        · rw [hX] at h
          simp at h
        · rw [hX] at h
          dsimp only at h
          have hLne : Config.isEmpty ltc = false :=
            addLoadParameters_isEmpty [("type", Val.str "pydatalab.bq.load")]
              doc.input ltc bL rfl hL
          have hEne : Config.isEmpty etc = false :=
            addExecuteParameters_isEmpty
              [("type", Val.str "pydatalab.bq.execute"),
               ("up_stream", Val.list [Val.str "bq_pipeline_load_task"])]
              doc.transformation etc bE rfl hE
          have hXne : Config.isEmpty xtc = false :=
            addExtractParameters_xtc_isEmpty
              [("type", Val.str "pydatalab.bq.extract"),
               ("up_stream", Val.list [Val.str "bq_pipeline_execute_task"])]
              etc doc.output xtc etc2 bX rfl hX
          have hE2ne : Config.isEmpty etc2 = false :=
            addExtractParameters_etc_isEmpty _ etc doc.output xtc etc2 bX hEne hX
          simp only [hLne, hE2ne, hXne, Bool.not_false, if_true, Bool.false_and,
            Bool.false_eq_true, if_false, List.nil_append, List.cons_append,
            List.singleton_append, Prod.mk.injEq, Except.ok.injEq] at h
          obtain ⟨hspec, henv⟩ := h
          refine ⟨ltc, etc2, xtc, ?_, ?_, ?_, ?_⟩
          · rw [← hspec]
          · rw [addLoadParameters_get?_keep _ doc.input ltc bL "up_stream"
              (by refine ⟨?_, ?_, ?_, ?_, ?_, ?_, ?_, ?_, ?_⟩ <;> decide) hL]
            rfl
          · rw [addExtractParameters_etc_get?_keep _ etc doc.output xtc etc2 bX "up_stream"
              (by decide) hX]
            rw [addExecuteParameters_get?_keep _ doc.transformation etc bE "up_stream"
              (by refine ⟨?_, ?_, ?_⟩ <;> decide) hE]
            rfl
          · rw [addExtractParameters_xtc_get?_keep _ etc doc.output xtc etc2 bX "up_stream"
              (by refine ⟨?_, ?_, ?_, ?_, ?_, ?_⟩ <;> decide) hX]
            rfl

end PydatalabBQ

namespace PydatalabBQ

/-- Claim C1.  The claim says compiling the document
`{input: {table: t}, transformation: {query: SELECT 1}, output: {}}` with a
valid name, email and schedule yields a spec with exactly one execute task
whose `up_stream` is empty.  The code instead raises: with `table` present
and `path` absent, the unconditional `schema_exists = True` at line 192
forces the schema-without-path error. -/
theorem c1_compile_raises_schema_error :
    pipelineCell (some "p1") docC1 [] =
      (Except.error "Schema is specified, but path is absent.", []) := rfl

/-- Claim C2.  The claim says that with `table` and `path` present and
`schema` absent the load mode is `append`; the code produces `create`,
because `schema_exists` is always `True` (line 192). -/
theorem c2_mode_create_even_without_schema :
    addLoadParameters [("type", Val.str "pydatalab.bq.load")]
        [("table", Val.str "t"), ("path", Val.str "gs://p")] =
      Except.ok ([("type", Val.str "pydatalab.bq.load"), ("path", Val.str "gs://p"),
                  ("table", Val.str "t"), ("mode", Val.str "create"),
                  ("format", Val.str "csv"), ("delimiter", Val.str ","),
                  ("quote", Val.str "\""), ("skip", Val.num 0),
                  ("strict", Val.bool true)], true) := rfl

/-- Claim C3.  The claim says that with `table` present and both `path` and
`schema` absent the load builder returns absent without error; the code
raises the schema-without-path error, again because `schema_exists` is
always `True`. -/
theorem c3_table_only_raises :
    addLoadParameters [("type", Val.str "pydatalab.bq.load")] [("table", Val.str "t")] =
      Except.error "Schema is specified, but path is absent." := rfl

/-- Claim C4.  In every assembled pipeline spec, the execute task carries an
`up_stream` edge to the load task only if a load task exists, the extract
task carries an `up_stream` edge to the execute task only if an execute
task exists, and every name listed in any `up_stream` refers to a task
present in the same tasks mapping.  (All three tasks are in fact always
present in a successful compile, since the task dictionaries are always
truthy.) -/
theorem c4_up_stream_refs_existing_tasks (name : Option String) (doc : PipelineDoc)
    (env : Env) (spec : PipelineSpec) (env' : Env)
    (h : pipelineCell name doc env = (Except.ok spec, env')) :
    (∀ t ∈ spec.tasks, ∀ s ∈ Config.upStreamNames t.2, tasksHasName spec.tasks s = true) ∧
    (∀ e, ("bq_pipeline_execute_task", e) ∈ spec.tasks →
      "bq_pipeline_load_task" ∈ Config.upStreamNames e →
      tasksHasName spec.tasks "bq_pipeline_load_task" = true) ∧
    (∀ x, ("bq_pipeline_extract_task", x) ∈ spec.tasks →
      "bq_pipeline_execute_task" ∈ Config.upStreamNames x →
      tasksHasName spec.tasks "bq_pipeline_execute_task" = true) := by
  obtain ⟨l, e, x, htasks, hl, he, hx⟩ := pipelineCell_ok_tasks name doc env spec env' h
  rw [htasks]
  refine ⟨?_, ?_, ?_⟩
  · intro t ht s hs
    simp only [List.mem_cons, List.not_mem_nil, or_false] at ht
    rcases ht with rfl | rfl | rfl
    · simp only [Config.upStreamNames, Config.getD, hl, Option.getD] at hs
      simp [Val.strNames] at hs
    · simp only [Config.upStreamNames, Config.getD, he, Option.getD] at hs
      simp only [Val.strNames, List.filterMap] at hs
      simp only [List.mem_singleton] at hs
      subst hs
      simp [tasksHasName]
    · simp only [Config.upStreamNames, Config.getD, hx, Option.getD] at hs
      simp only [Val.strNames, List.filterMap] at hs
      simp only [List.mem_singleton] at hs
      subst hs
      simp [tasksHasName]
  · intro e' he' hm
    simp [tasksHasName]
  · intro x' hx' hm
    simp [tasksHasName]

/-- Witness for claim C4 at a concrete successful compile. -/
theorem c4_witness :
    tasksHasName specC4.tasks "bq_pipeline_load_task" = true :=
  (c4_up_stream_refs_existing_tasks (some "p4") docC4 [] specC4 [("p4", specC4)] rfl).2.1
    execC4 (List.Mem.tail _ (List.Mem.head _)) (by decide)

/-- Claim C5.  The claim says a document whose three sub-configs hold no
decisive keys fails with the no-tasks error; the code instead compiles
successfully and registers a spec with three skeleton tasks, because the
builders return `None` but their return values are discarded and the
non-empty task dictionaries are truthy. -/
theorem c5_empty_config_compiles_without_error :
    pipelineCell (some "p5") docC5 [] = (Except.ok specC5, [("p5", specC5)]) := rfl

/-- Claim C6.  The claim says a file option without `path` on a
not-needed load stage raises; the code returns `None` silently, because
the early return at line 220 makes the validation at lines 237-240
unreachable. -/
theorem c6_file_option_without_path_no_error :
    addLoadParameters [("type", Val.str "pydatalab.bq.load")] [("delimiter", Val.str ";")] =
      Except.ok ([("type", Val.str "pydatalab.bq.load")], false) := rfl

/-- Claim C7.  The parameter converter produces one compiled parameter per
input parameter, in the same order, each holding exactly the three compiled
fields `name`, `parameterType.type` and `parameterValue.value`. -/
theorem c7_params_one_to_one (ps : List QueryParam) (i : Nat) :
    (getQueryParameters ps).length = ps.length ∧
    (getQueryParameters ps)[i]? = ps[i]?.map compileParam := by
  unfold getQueryParameters
  rw [foldl_append_map
    (fun param : QueryParam =>
      { name := param.name, parameterType := { type := param.type },
        parameterValue := { value := param.value } : CompiledParam }) ps []]
  simp only [List.nil_append, List.length_map, List.getElem?_map, true_and]
  rfl

/-- Claim C8.  When the output config has no `table`, the extract builder
returns absent regardless of which other keys are present, raises no
error, and leaves both task configs unmodified. -/
theorem c8_extract_absent_without_table (xtc etc output : Config)
    (h : Config.hasKey output "table" = false) :
    addExtractParameters xtc etc output = Except.ok (xtc, etc, false) := by
  unfold addExtractParameters
  simp [h]

/-- Witness for claim C8 at an output config that has `path` and a file
option but no `table`. -/
theorem c8_witness :
    Config.hasKey [("path", Val.str "gs://out"), ("header", Val.bool false)] "table" = false ∧
    addExtractParameters
        [("type", Val.str "pydatalab.bq.extract")] [("type", Val.str "pydatalab.bq.execute")]
        [("path", Val.str "gs://out"), ("header", Val.bool false)] =
      Except.ok ([("type", Val.str "pydatalab.bq.extract")],
                 [("type", Val.str "pydatalab.bq.execute")], false) :=
  ⟨rfl, c8_extract_absent_without_table
    [("type", Val.str "pydatalab.bq.extract")] [("type", Val.str "pydatalab.bq.execute")]
    [("path", Val.str "gs://out"), ("header", Val.bool false)] rfl⟩

/-- Claim C9.  Whenever compilation fails with any error, the registry is
left unchanged: the registration statement runs only after every raising
statement. -/
theorem c9_registry_unchanged_on_error (name : Option String) (doc : PipelineDoc)
    (env : Env) (msg : String)
    (h : (pipelineCell name doc env).1 = Except.error msg) :
    (pipelineCell name doc env).2 = env := by
  cases name with
  | none => rfl
  | some n =>
    unfold pipelineCell at h ⊢
    dsimp only at h ⊢
    rcases hL : addLoadParameters [("type", Val.str "pydatalab.bq.load")] doc.input with
      eL | ⟨ltc, bL⟩
    · rfl
    · rw [hL] at h
      dsimp only at h ⊢
      rcases hE : addExecuteParameters
          [("type", Val.str "pydatalab.bq.execute"),
           ("up_stream", Val.list [Val.str "bq_pipeline_load_task"])]
          doc.transformation with eE | ⟨etc, bE⟩
      · rfl
      · rw [hE] at h
        dsimp only at h ⊢
        rcases hX : addExtractParameters
            [("type", Val.str "pydatalab.bq.extract"),
             ("up_stream", Val.list [Val.str "bq_pipeline_execute_task"])]
            etc doc.output with eX | ⟨xtc, etc2, bX⟩
        · rfl
        · rw [hX] at h
          dsimp only at h ⊢
          split at h
          · next hcond => rw [if_pos hcond]
          · simp at h

/-- Witness for claim C9 at a concrete failing compile over a non-empty
registry. -/
theorem c9_witness :
    (pipelineCell (some "p9") docC9 envC9).1 =
      Except.error "Schema is specified, but path is absent." ∧
    (pipelineCell (some "p9") docC9 envC9).2 = envC9 :=
  ⟨rfl, c9_registry_unchanged_on_error (some "p9") docC9 envC9
    "Schema is specified, but path is absent." rfl⟩

/-- Claim C10.  The extract builder can never return the
path-given-but-table-absent error: the only route to the path branch first
writes `table` into the execute config, so the guard at line 276 always
sees the key. -/
theorem c10_path_without_table_unreachable (xtc etc output : Config) :
    isPathWithoutTableError (addExtractParameters xtc etc output) = false := by
  unfold addExtractParameters
  dsimp only
  split_ifs with h1 h2 h3
  · simp [Config.hasKey_set_self] at h3
  · rfl
  · rfl
  · rfl
  · rfl

end PydatalabBQ
